import Mathlib

/-!
Verification of the transaction life-cycle core of the Icubank repository.

The embedding below translates the transaction data model and the three
operations that mutate the ledger — `createTransaction` (Submit), the
periodic status sweep (the `useEffect` interval in the main application
file), and `onAuthorizeTransaction` (Authorize) — together with the
recipient-edit operation `onUpdateRecipient` that the frame claims need.

Timestamps are JavaScript epoch milliseconds, modelled as `Int` (the
source calls `Date.getTime()` and divides by 1000 before comparing with
second thresholds; all comparisons below are kept in milliseconds, which
is exact: `(now - t)/1000 > k` over the reals iff `now - t > 1000*k` for
integer `now`, `t`).  Monetary amounts and rates are opaque payload for
every claim, so they are carried as `Int` fields that no operation reads.
-/

namespace Icubank

/-- The transaction status enumeration (`TransactionStatus` in `types.ts`;
all six members appear in the main application file). -/
inductive TransactionStatus where
  | SUBMITTED
  | CONVERTING
  | FLAGGED_AWAITING_CLEARANCE
  | CLEARANCE_GRANTED
  | IN_TRANSIT
  | FUNDS_ARRIVED
deriving DecidableEq

/-- The `statusTimestamps` object of a transaction: at most one timestamp
per status, absent keys modelled as `none`. -/
structure StatusTimestamps where
  submitted : Option Int
  converting : Option Int
  flagged : Option Int
  clearanceGranted : Option Int
  inTransit : Option Int
  fundsArrived : Option Int
deriving DecidableEq

/-- Key lookup `statusTimestamps[s]`. -/
def StatusTimestamps.get (ts : StatusTimestamps) (s : TransactionStatus) : Option Int :=
  match s with
  | .SUBMITTED => ts.submitted
  | .CONVERTING => ts.converting
  | .FLAGGED_AWAITING_CLEARANCE => ts.flagged
  | .CLEARANCE_GRANTED => ts.clearanceGranted
  | .IN_TRANSIT => ts.inTransit
  | .FUNDS_ARRIVED => ts.fundsArrived

/-- The spread-with-computed-key update `\x7b...ts, [s]: t\x7d`. -/
def StatusTimestamps.set (ts : StatusTimestamps) (s : TransactionStatus) (t : Int) : StatusTimestamps :=
  match s with
  | .SUBMITTED => { ts with submitted := some t }
  | .CONVERTING => { ts with converting := some t }
  | .FLAGGED_AWAITING_CLEARANCE => { ts with flagged := some t }
  | .CLEARANCE_GRANTED => { ts with clearanceGranted := some t }
  | .IN_TRANSIT => { ts with inTransit := some t }
  | .FUNDS_ARRIVED => { ts with fundsArrived := some t }

/-- `deliveryOptions` of a recipient. -/
structure DeliveryOptions where
  bankDeposit : Bool
  cardDeposit : Bool
  cashPickup : Bool
deriving DecidableEq

/-- `realDetails` of a recipient (unmasked account data). -/
structure RealDetails where
  accountNumber : String
  swiftBic : String
deriving DecidableEq

/-- A recipient record, fields as constructed by `addRecipient`. -/
structure Recipient where
  id : String
  fullName : String
  nickname : String
  phone : String
  bankName : String
  accountNumber : String
  country : String
  deliveryOptions : DeliveryOptions
  realDetails : RealDetails
  streetAddress : String
  city : String
  stateProvince : String
  postalCode : String
deriving DecidableEq

/-- The form data consumed by `addRecipient` / `onUpdateRecipient`. -/
structure RecipientData where
  fullName : String
  nickname : String
  phone : String
  bankName : String
  accountNumber : String
  swiftBic : String
  country : String
  streetAddress : String
  city : String
  stateProvince : String
  postalCode : String
  cashPickupEnabled : Bool
deriving DecidableEq

/-- The masked display form of an account number:
the template literal with `data.accountNumber.slice(-4)`. -/
def maskAccountNumber (accountNumber : String) : String :=
  "•••• " ++ accountNumber.takeRight 4

/-- A transaction record, fields as constructed by `createTransaction` and
as read by the sweep and by `onAuthorizeTransaction`.  `clearanceFeePaid`
is absent (`none`) until Authorize resolves it. -/
structure Transaction where
  id : String
  accountId : String
  recipient : Recipient
  sendAmount : Int
  receiveAmount : Int
  fee : Int
  exchangeRate : Int
  purpose : String
  description : String
  splitGroupId : Option String
  requiresAuth : Bool
  txType : String
  estimatedArrival : Int
  status : TransactionStatus
  statusTimestamps : StatusTimestamps
  clearanceFeePaid : Option Bool
deriving DecidableEq

/-- The caller-supplied part of `createTransaction`
(`Omit<Transaction, 'id' | 'status' | 'estimatedArrival' | 'statusTimestamps' | 'type'>`). -/
structure TxDetails where
  accountId : String
  recipient : Recipient
  sendAmount : Int
  receiveAmount : Int
  fee : Int
  exchangeRate : Int
  purpose : String
  description : String
  splitGroupId : Option String
  requiresAuth : Bool
deriving DecidableEq

/-- The authorization method argument of `onAuthorizeTransaction`. -/
inductive AuthMethod where
  | code
  | fee
deriving DecidableEq

/-- The notification / messaging side effects the modelled operations can
fire (each constructor tags the id of the transaction, or the full name of
the recipient, the source call mentions). -/
inductive Effect where
  | transferSubmittedNotification (txId : String)
  | transactionReceiptEmail (txId : String)
  | transactionReceiptSms (txId : String)
  | fundsArrivedNotification (txId : String)
  | fundsArrivedEmail (txId : String)
  | recipientUpdatedNotification (fullName : String)
deriving DecidableEq

/-- The settings the operations consult before firing side effects:
`pushNotificationSettings.transactions`, `privacySettings.email.transactions`
and `privacySettings.sms.transactions`. -/
structure Config where
  pushTransactions : Bool
  emailTransactions : Bool
  smsTransactions : Bool
deriving DecidableEq

/-- The body of the sweep interval applied to one transaction: the
callback of `prevTransactions.map` in the status-update `useEffect`,
paired with the side effects it fires.  A record whose `statusTimestamps`
lacks the `SUBMITTED` entry (or, in `CLEARANCE_GRANTED`, lacks that entry)
is returned unchanged; the source would throw there, and no ledger record
ever lacks them (see the well-formedness invariant below). -/
def sweepTx (cfg : Config) (now : Int) (tx : Transaction) : Transaction × List Effect :=
  if tx.status = .FUNDS_ARRIVED then (tx, [])
  else
    match tx.statusTimestamps.submitted with
    | none => (tx, [])
    | some submittedTime =>
      let elapsedMs := now - submittedTime
      if tx.status = .SUBMITTED ∧ elapsedMs > 4000 then
        let next := if tx.requiresAuth then TransactionStatus.FLAGGED_AWAITING_CLEARANCE
                    else TransactionStatus.CONVERTING
        ({ tx with status := next, statusTimestamps := tx.statusTimestamps.set next now }, [])
      else if tx.status = .CONVERTING ∧ elapsedMs > 8000 then
        ({ tx with status := .IN_TRANSIT,
                   statusTimestamps := tx.statusTimestamps.set .IN_TRANSIT now }, [])
      else if tx.status = .IN_TRANSIT ∧ elapsedMs > 15000 then
        ({ tx with status := .FUNDS_ARRIVED,
                   statusTimestamps := tx.statusTimestamps.set .FUNDS_ARRIVED now },
         (if cfg.pushTransactions then [Effect.fundsArrivedNotification tx.id] else []) ++
         (if cfg.emailTransactions then [Effect.fundsArrivedEmail tx.id] else []))
      else if tx.status = .CLEARANCE_GRANTED then
        match tx.statusTimestamps.clearanceGranted with
        | some cg =>
          if elapsedMs > (cg - submittedTime) + 4000 then
            ({ tx with status := .IN_TRANSIT,
                       statusTimestamps := tx.statusTimestamps.set .IN_TRANSIT now }, [])
          else (tx, [])
        | none => (tx, [])
      else (tx, [])

/-- One whole sweep over the ledger: the `setTransactions(prev => prev.map(...))`
call, with the effects of every element collected in ledger order. -/
def sweepLedger (cfg : Config) (now : Int) (txs : List Transaction) :
    List Transaction × List Effect :=
  (txs.map (fun tx => (sweepTx cfg now tx).1),
   (txs.map (fun tx => (sweepTx cfg now tx).2)).flatten)

/-- The body of `onAuthorizeTransaction` applied to one transaction. -/
def authorizeTx (transactionId : String) (method : AuthMethod) (now : Int)
    (tx : Transaction) : Transaction :=
  if tx.id = transactionId ∧ tx.status = .FLAGGED_AWAITING_CLEARANCE then
    { tx with status := .CLEARANCE_GRANTED,
              statusTimestamps := tx.statusTimestamps.set .CLEARANCE_GRANTED now,
              clearanceFeePaid := some (decide (method = AuthMethod.fee)) }
  else tx

/-- `onAuthorizeTransaction` over the whole ledger. -/
def authorizeLedger (transactionId : String) (method : AuthMethod) (now : Int)
    (txs : List Transaction) : List Transaction :=
  txs.map (authorizeTx transactionId method now)

/-- The new record built by `createTransaction`
(`id` is the template literal over `Date.now()`; `estimatedArrival` is
three days out; `statusTimestamps` starts with the `SUBMITTED` entry). -/
def mkTransaction (d : TxDetails) (now : Int) : Transaction :=
  { id := "txn_" ++ toString now
    accountId := d.accountId
    recipient := d.recipient
    sendAmount := d.sendAmount
    receiveAmount := d.receiveAmount
    fee := d.fee
    exchangeRate := d.exchangeRate
    purpose := d.purpose
    description := d.description
    splitGroupId := d.splitGroupId
    requiresAuth := d.requiresAuth
    txType := "debit"
    estimatedArrival := now + 86400000 * 3
    status := .SUBMITTED
    statusTimestamps :=
      { submitted := some now, converting := none, flagged := none,
        clearanceGranted := none, inTransit := none, fundsArrived := none }
    clearanceFeePaid := none }

/-- The recipient update built by `onUpdateRecipient` for the matching
record (`id` and `deliveryOptions` are kept from the old record). -/
def updateRecipientFields (data : RecipientData) (r : Recipient) : Recipient :=
  { r with fullName := data.fullName
           nickname := data.nickname
           phone := data.phone
           bankName := data.bankName
           accountNumber := maskAccountNumber data.accountNumber
           country := data.country
           realDetails := { accountNumber := data.accountNumber, swiftBic := data.swiftBic }
           streetAddress := data.streetAddress
           city := data.city
           stateProvince := data.stateProvince
           postalCode := data.postalCode }

/-- The application state the modelled operations touch: the transaction
ledger, the recipient list, and the log of fired side effects. -/
structure BankState where
  transactions : List Transaction
  recipients : List Recipient
  effects : List Effect
deriving DecidableEq

/-- `createTransaction` as a state operation: always builds the record,
prepends it to the ledger, fires the submission notification and the
(settings-gated) receipt email and SMS, and returns the record.  The
source signature allows a `null` result, so the returned value is an
`Option`; the body always returns the record. -/
def createTransaction (cfg : Config) (d : TxDetails) (now : Int) (s : BankState) :
    Option Transaction × BankState :=
  let newTransaction := mkTransaction d now
  (some newTransaction,
   { s with transactions := newTransaction :: s.transactions,
            effects := s.effects ++
              ([Effect.transferSubmittedNotification newTransaction.id] ++
               (if cfg.emailTransactions then [Effect.transactionReceiptEmail newTransaction.id] else []) ++
               (if cfg.smsTransactions then [Effect.transactionReceiptSms newTransaction.id] else [])) })

/-- One sweep tick as a state operation. -/
def sweepState (cfg : Config) (now : Int) (s : BankState) : BankState :=
  { s with transactions := (sweepLedger cfg now s.transactions).1,
           effects := s.effects ++ (sweepLedger cfg now s.transactions).2 }

/-- `onAuthorizeTransaction` as a state operation (it fires no effects). -/
def authorizeState (transactionId : String) (method : AuthMethod) (now : Int)
    (s : BankState) : BankState :=
  { s with transactions := authorizeLedger transactionId method now s.transactions }

/-- `onUpdateRecipient` as a state operation: rewrites the matching
recipient and fires the update notification; the ledger is untouched. -/
def onUpdateRecipient (recipientId : String) (data : RecipientData) (s : BankState) :
    BankState :=
  { s with recipients := s.recipients.map
             (fun r => if r.id = recipientId then updateRecipientFields data r else r),
           effects := s.effects ++ [Effect.recipientUpdatedNotification data.fullName] }

/-- The operations a session can perform on the modelled state. -/
inductive Op where
  | submit (d : TxDetails) (now : Int)
  | sweep (now : Int)
  | authorize (transactionId : String) (method : AuthMethod) (now : Int)
  | updateRecipient (recipientId : String) (data : RecipientData)

/-- Interpret one operation. -/
def step (cfg : Config) (s : BankState) : Op → BankState
  | .submit d now => (createTransaction cfg d now s).2
  | .sweep now => sweepState cfg now s
  | .authorize tid m now => authorizeState tid m now s
  | .updateRecipient rid data => onUpdateRecipient rid data s

/-- The empty session state. -/
def initState : BankState := { transactions := [], recipients := [], effects := [] }

/-- Run a sequence of operations from the empty state. -/
def run (cfg : Config) (ops : List Op) : BankState :=
  ops.foldl (step cfg) initState

/-- `ts1` keeps every entry of `ts2`: no timestamp set in `ts2` is lost or
overwritten in `ts1`. -/
def Extends (ts1 ts2 : StatusTimestamps) : Prop :=
  ∀ (s : TransactionStatus) (t : Int), ts2.get s = some t → ts1.get s = some t

/-- Well-formedness of a ledger record: `statusTimestamps` holds exactly
one entry for each status on the (unique, `requiresAuth`-determined) path
from `SUBMITTED` to the current status, and no other entry.  In
particular the current status always has a matching entry. -/
def WF (tx : Transaction) : Prop :=
  match tx.status with
  | .SUBMITTED =>
      tx.statusTimestamps.submitted.isSome = true ∧
      tx.statusTimestamps.converting = none ∧ tx.statusTimestamps.flagged = none ∧
      tx.statusTimestamps.clearanceGranted = none ∧ tx.statusTimestamps.inTransit = none ∧
      tx.statusTimestamps.fundsArrived = none
  | .CONVERTING =>
      tx.requiresAuth = false ∧
      tx.statusTimestamps.submitted.isSome = true ∧
      tx.statusTimestamps.converting.isSome = true ∧
      tx.statusTimestamps.flagged = none ∧ tx.statusTimestamps.clearanceGranted = none ∧
      tx.statusTimestamps.inTransit = none ∧ tx.statusTimestamps.fundsArrived = none
  | .FLAGGED_AWAITING_CLEARANCE =>
      tx.requiresAuth = true ∧
      tx.statusTimestamps.submitted.isSome = true ∧
      tx.statusTimestamps.flagged.isSome = true ∧
      tx.statusTimestamps.converting = none ∧ tx.statusTimestamps.clearanceGranted = none ∧
      tx.statusTimestamps.inTransit = none ∧ tx.statusTimestamps.fundsArrived = none
  | .CLEARANCE_GRANTED =>
      tx.requiresAuth = true ∧
      tx.statusTimestamps.submitted.isSome = true ∧
      tx.statusTimestamps.flagged.isSome = true ∧
      tx.statusTimestamps.clearanceGranted.isSome = true ∧
      tx.statusTimestamps.converting = none ∧
      tx.statusTimestamps.inTransit = none ∧ tx.statusTimestamps.fundsArrived = none
  | .IN_TRANSIT =>
      tx.statusTimestamps.submitted.isSome = true ∧
      tx.statusTimestamps.inTransit.isSome = true ∧
      tx.statusTimestamps.fundsArrived = none ∧
      ((tx.requiresAuth = false ∧ tx.statusTimestamps.converting.isSome = true ∧
        tx.statusTimestamps.flagged = none ∧ tx.statusTimestamps.clearanceGranted = none) ∨
       (tx.requiresAuth = true ∧ tx.statusTimestamps.flagged.isSome = true ∧
        tx.statusTimestamps.clearanceGranted.isSome = true ∧
        tx.statusTimestamps.converting = none))
  | .FUNDS_ARRIVED =>
      tx.statusTimestamps.submitted.isSome = true ∧
      tx.statusTimestamps.inTransit.isSome = true ∧
      tx.statusTimestamps.fundsArrived.isSome = true ∧
      ((tx.requiresAuth = false ∧ tx.statusTimestamps.converting.isSome = true ∧
        tx.statusTimestamps.flagged = none ∧ tx.statusTimestamps.clearanceGranted = none) ∨
       (tx.requiresAuth = true ∧ tx.statusTimestamps.flagged.isSome = true ∧
        tx.statusTimestamps.clearanceGranted.isSome = true ∧
        tx.statusTimestamps.converting = none))

/-- Number of funds-arrived notifications tagged `tid` in an effect log. -/
def arrivalNotifCount (fx : List Effect) (tid : String) : Nat :=
  fx.countP (fun e => decide (e = Effect.fundsArrivedNotification tid))

/-- Number of funds-arrived receipt emails tagged `tid` in an effect log. -/
def arrivalEmailCount (fx : List Effect) (tid : String) : Nat :=
  fx.countP (fun e => decide (e = Effect.fundsArrivedEmail tid))

/-- Number of ledger records with id `tid` that are in `FUNDS_ARRIVED`. -/
def arrivedCount (txs : List Transaction) (tid : String) : Nat :=
  txs.countP (fun tx => decide (tx.id = tid ∧ tx.status = TransactionStatus.FUNDS_ARRIVED))

/-- The operations that can touch one given transaction record: a sweep
tick, or an authorize call targeting that record.  (An authorize call for
a different id leaves the record unchanged, so every interleaving of the
ledger operations acts on a fixed record as a sequence of these.) -/
inductive TxOp where
  | sweep (now : Int)
  | auth (method : AuthMethod) (now : Int)

/-- Apply one per-transaction operation. -/
def applyTxOp (cfg : Config) (tx : Transaction) : TxOp → Transaction
  | .sweep now => (sweepTx cfg now tx).1
  | .auth m now => authorizeTx tx.id m now tx

/-- Apply a sequence of per-transaction operations. -/
def applyTxOps (cfg : Config) (tx : Transaction) (ops : List TxOp) : Transaction :=
  ops.foldl (applyTxOp cfg) tx

/-- A recipient fixture. -/
def rcp0 : Recipient :=
  { id := "rec_1", fullName := "Jane Roe", nickname := "J", phone := "555",
    bankName := "Bank", accountNumber := "•••• 6789", country := "US",
    deliveryOptions := { bankDeposit := true, cardDeposit := true, cashPickup := false },
    realDetails := { accountNumber := "123456789", swiftBic := "SWFT" },
    streetAddress := "1 Main", city := "Town", stateProvince := "ST", postalCode := "00000" }

/-- Submission details without the authorization flag. -/
def d0 : TxDetails :=
  { accountId := "acc_1", recipient := rcp0, sendAmount := 100, receiveAmount := 100,
    fee := 0, exchangeRate := 1, purpose := "p", description := "d",
    splitGroupId := none, requiresAuth := false }

/-- Submission details with the authorization flag. -/
def dAuth : TxDetails := { d0 with requiresAuth := true }

/-- Settings with every transaction channel disabled. -/
def cfgOff : Config :=
  { pushTransactions := false, emailTransactions := false, smsTransactions := false }

/-- Settings with every transaction channel enabled. -/
def cfgOn : Config :=
  { pushTransactions := true, emailTransactions := true, smsTransactions := true }

/-- A submission followed by three sweeps past the three thresholds. -/
def ops4 : List Op := [Op.submit d0 0, Op.sweep 5000, Op.sweep 9000, Op.sweep 16000]

/-- A fresh unauthorized transaction fixture. -/
def tx0 : Transaction := mkTransaction d0 0

/-- A fresh authorization-required transaction fixture. -/
def txAuth0 : Transaction := mkTransaction dAuth 0

/-- A transaction sitting in `CLEARANCE_GRANTED` (flagged at 5000,
cleared at 8000). -/
def txCG : Transaction :=
  { txAuth0 with
      status := .CLEARANCE_GRANTED,
      statusTimestamps :=
        (txAuth0.statusTimestamps.set .FLAGGED_AWAITING_CLEARANCE 5000).set
          .CLEARANCE_GRANTED 8000,
      clearanceFeePaid := some false }

/-- A transaction sitting in `FLAGGED_AWAITING_CLEARANCE` (flagged at 5000). -/
def txFlag : Transaction :=
  { txAuth0 with
      status := .FLAGGED_AWAITING_CLEARANCE,
      statusTimestamps := txAuth0.statusTimestamps.set .FLAGGED_AWAITING_CLEARANCE 5000 }

/-- A transaction that has reached `FUNDS_ARRIVED` (converted at 5000,
in transit at 9000, arrived at 16000). -/
def txFA : Transaction :=
  { tx0 with
      status := .FUNDS_ARRIVED,
      statusTimestamps :=
        ((tx0.statusTimestamps.set .CONVERTING 5000).set .IN_TRANSIT 9000).set
          .FUNDS_ARRIVED 16000 }

/-- A second submitted transaction with a distinct id. -/
def txSub1 : Transaction := mkTransaction d0 1


theorem sweepTx_of_funds_arrived (cfg : Config) (now : Int) (tx : Transaction)
    (h : tx.status = .FUNDS_ARRIVED) : sweepTx cfg now tx = (tx, []) := by
  simp [sweepTx, h]

theorem sweepTx_of_flagged (cfg : Config) (now : Int) (tx : Transaction)
    (h : tx.status = .FLAGGED_AWAITING_CLEARANCE) : sweepTx cfg now tx = (tx, []) := by
  simp [sweepTx, h]
  cases tx.statusTimestamps.submitted <;> simp

theorem sweepTx_of_no_submitted (cfg : Config) (now : Int) (tx : Transaction)
    (h : tx.statusTimestamps.submitted = none) : sweepTx cfg now tx = (tx, []) := by
  simp [sweepTx, h]

theorem sweepTx_of_submitted (cfg : Config) (now st : Int) (tx : Transaction)
    (hs : tx.statusTimestamps.submitted = some st) (h : tx.status = .SUBMITTED) :
    sweepTx cfg now tx =
      if now - st > 4000 then
        ({ tx with
             status := if tx.requiresAuth then .FLAGGED_AWAITING_CLEARANCE else .CONVERTING,
             statusTimestamps := tx.statusTimestamps.set
               (if tx.requiresAuth then .FLAGGED_AWAITING_CLEARANCE else .CONVERTING) now }, [])
      else (tx, []) := by
  simp [sweepTx, hs, h]


theorem sweepTx_of_converting (cfg : Config) (now st : Int) (tx : Transaction)
    (hs : tx.statusTimestamps.submitted = some st) (h : tx.status = .CONVERTING) :
    sweepTx cfg now tx =
      if now - st > 8000 then
        ({ tx with
             status := .IN_TRANSIT,
             statusTimestamps := tx.statusTimestamps.set .IN_TRANSIT now }, [])
      else (tx, []) := by
  simp [sweepTx, hs, h]

theorem sweepTx_of_in_transit (cfg : Config) (now st : Int) (tx : Transaction)
    (hs : tx.statusTimestamps.submitted = some st) (h : tx.status = .IN_TRANSIT) :
    sweepTx cfg now tx =
      if now - st > 15000 then
        ({ tx with
             status := .FUNDS_ARRIVED,
             statusTimestamps := tx.statusTimestamps.set .FUNDS_ARRIVED now },
         (if cfg.pushTransactions then [Effect.fundsArrivedNotification tx.id] else []) ++
         (if cfg.emailTransactions then [Effect.fundsArrivedEmail tx.id] else []))
      else (tx, []) := by
  simp [sweepTx, hs, h]

theorem sweepTx_of_clearance_granted (cfg : Config) (now st cg : Int) (tx : Transaction)
    (hs : tx.statusTimestamps.submitted = some st)
    (hcg : tx.statusTimestamps.clearanceGranted = some cg)
    (h : tx.status = .CLEARANCE_GRANTED) :
    sweepTx cfg now tx =
      if now - st > (cg - st) + 4000 then
        ({ tx with
             status := .IN_TRANSIT,
             statusTimestamps := tx.statusTimestamps.set .IN_TRANSIT now }, [])
      else (tx, []) := by
  simp [sweepTx, hs, hcg, h]

theorem sweepTx_of_clearance_granted_none (cfg : Config) (now : Int) (tx : Transaction)
    (hcg : tx.statusTimestamps.clearanceGranted = none)
    (h : tx.status = .CLEARANCE_GRANTED) :
    sweepTx cfg now tx = (tx, []) := by
  simp [sweepTx, hcg, h]
  cases tx.statusTimestamps.submitted <;> simp

theorem sweepTx_frame (cfg : Config) (now : Int) (tx : Transaction) :
    (sweepTx cfg now tx).1 =
      { tx with
          status := (sweepTx cfg now tx).1.status,
          statusTimestamps := (sweepTx cfg now tx).1.statusTimestamps } := by
  cases h : tx.status
  case SUBMITTED =>
    cases hs : tx.statusTimestamps.submitted with
    | none => rw [sweepTx_of_no_submitted cfg now tx hs]
    | some st => rw [sweepTx_of_submitted cfg now st tx hs h]; split <;> rfl
  case CONVERTING =>
    cases hs : tx.statusTimestamps.submitted with
    | none => rw [sweepTx_of_no_submitted cfg now tx hs]
    | some st => rw [sweepTx_of_converting cfg now st tx hs h]; split <;> rfl
  case FLAGGED_AWAITING_CLEARANCE => rw [sweepTx_of_flagged cfg now tx h]
  case CLEARANCE_GRANTED =>
    cases hs : tx.statusTimestamps.submitted with
    | none => rw [sweepTx_of_no_submitted cfg now tx hs]
    | some st =>
      cases hcg : tx.statusTimestamps.clearanceGranted with
      | none => rw [sweepTx_of_clearance_granted_none cfg now tx hcg h]
      | some cg => rw [sweepTx_of_clearance_granted cfg now st cg tx hs hcg h]; split <;> rfl
  case IN_TRANSIT =>
    cases hs : tx.statusTimestamps.submitted with
    | none => rw [sweepTx_of_no_submitted cfg now tx hs]
    | some st => rw [sweepTx_of_in_transit cfg now st tx hs h]; split <;> rfl
  case FUNDS_ARRIVED => rw [sweepTx_of_funds_arrived cfg now tx h]


theorem sweepTx_id (cfg : Config) (now : Int) (tx : Transaction) :
    (sweepTx cfg now tx).1.id = tx.id := by
  conv_lhs => rw [sweepTx_frame cfg now tx]

theorem sweepTx_requiresAuth (cfg : Config) (now : Int) (tx : Transaction) :
    (sweepTx cfg now tx).1.requiresAuth = tx.requiresAuth := by
  conv_lhs => rw [sweepTx_frame cfg now tx]

theorem sweepTx_recipient (cfg : Config) (now : Int) (tx : Transaction) :
    (sweepTx cfg now tx).1.recipient = tx.recipient := by
  conv_lhs => rw [sweepTx_frame cfg now tx]

theorem StatusTimestamps.get_set (ts : StatusTimestamps) (s s2 : TransactionStatus) (t : Int) :
    (ts.set s2 t).get s = if s = s2 then some t else ts.get s := by
  cases s <;> cases s2 <;> simp [StatusTimestamps.get, StatusTimestamps.set]

theorem authorizeTx_of_not_flagged (tid : String) (m : AuthMethod) (now : Int)
    (tx : Transaction) (h : ¬(tx.id = tid ∧ tx.status = .FLAGGED_AWAITING_CLEARANCE)) :
    authorizeTx tid m now tx = tx := by
  simp [authorizeTx, h]

theorem authorizeTx_of_flagged (tid : String) (m : AuthMethod) (now : Int)
    (tx : Transaction) (hid : tx.id = tid) (h : tx.status = .FLAGGED_AWAITING_CLEARANCE) :
    authorizeTx tid m now tx =
      { tx with
          status := .CLEARANCE_GRANTED,
          statusTimestamps := tx.statusTimestamps.set .CLEARANCE_GRANTED now,
          clearanceFeePaid := some (decide (m = AuthMethod.fee)) } := by
  simp [authorizeTx, hid, h]

theorem authorizeTx_frame (tid : String) (m : AuthMethod) (now : Int) (tx : Transaction) :
    (authorizeTx tid m now tx) =
      { tx with
          status := (authorizeTx tid m now tx).status,
          statusTimestamps := (authorizeTx tid m now tx).statusTimestamps,
          clearanceFeePaid := (authorizeTx tid m now tx).clearanceFeePaid } := by
  by_cases h : tx.id = tid ∧ tx.status = .FLAGGED_AWAITING_CLEARANCE
  · rw [authorizeTx_of_flagged tid m now tx h.1 h.2]
  · rw [authorizeTx_of_not_flagged tid m now tx h]

theorem sweepTx_status_step (cfg : Config) (now : Int) (tx : Transaction) :
    (sweepTx cfg now tx).1 = tx ∨
    (tx.status = .SUBMITTED ∧ tx.requiresAuth = true ∧
      (sweepTx cfg now tx).1.status = .FLAGGED_AWAITING_CLEARANCE) ∨
    (tx.status = .SUBMITTED ∧ tx.requiresAuth = false ∧
      (sweepTx cfg now tx).1.status = .CONVERTING) ∨
    (tx.status = .CONVERTING ∧ (sweepTx cfg now tx).1.status = .IN_TRANSIT) ∨
    (tx.status = .IN_TRANSIT ∧ (sweepTx cfg now tx).1.status = .FUNDS_ARRIVED) ∨
    (tx.status = .CLEARANCE_GRANTED ∧ (sweepTx cfg now tx).1.status = .IN_TRANSIT) := by
  cases h : tx.status
  case SUBMITTED =>
    cases hs : tx.statusTimestamps.submitted with
    | none => left; rw [sweepTx_of_no_submitted cfg now tx hs]
    | some st =>
      rw [sweepTx_of_submitted cfg now st tx hs h]
      split
      · cases hr : tx.requiresAuth
        · right; right; left; exact ⟨rfl, rfl, by simp⟩
        · right; left; exact ⟨rfl, rfl, by simp⟩
      · left; rfl
  case CONVERTING =>
    cases hs : tx.statusTimestamps.submitted with
    | none => left; rw [sweepTx_of_no_submitted cfg now tx hs]
    | some st =>
      rw [sweepTx_of_converting cfg now st tx hs h]
      split
      · right; right; right; left; exact ⟨rfl, rfl⟩
      · left; rfl
  case FLAGGED_AWAITING_CLEARANCE => left; rw [sweepTx_of_flagged cfg now tx h]
  case CLEARANCE_GRANTED =>
    cases hs : tx.statusTimestamps.submitted with
    | none => left; rw [sweepTx_of_no_submitted cfg now tx hs]
    | some st =>
      cases hcg : tx.statusTimestamps.clearanceGranted with
      | none => left; rw [sweepTx_of_clearance_granted_none cfg now tx hcg h]
      | some cg =>
        rw [sweepTx_of_clearance_granted cfg now st cg tx hs hcg h]
        split
        · right; right; right; right; right; exact ⟨rfl, rfl⟩
        · left; rfl
  case IN_TRANSIT =>
    cases hs : tx.statusTimestamps.submitted with
    | none => left; rw [sweepTx_of_no_submitted cfg now tx hs]
    | some st =>
      rw [sweepTx_of_in_transit cfg now st tx hs h]
      split
      · right; right; right; right; left; exact ⟨rfl, rfl⟩
      · left; rfl
  case FUNDS_ARRIVED => left; rw [sweepTx_of_funds_arrived cfg now tx h]

theorem authorizeTx_status_step (tid : String) (m : AuthMethod) (now : Int)
    (tx : Transaction) :
    authorizeTx tid m now tx = tx ∨
    (tx.status = .FLAGGED_AWAITING_CLEARANCE ∧
      (authorizeTx tid m now tx).status = .CLEARANCE_GRANTED) := by
  by_cases h : tx.id = tid ∧ tx.status = .FLAGGED_AWAITING_CLEARANCE
  · right
    rw [authorizeTx_of_flagged tid m now tx h.1 h.2]
    exact ⟨h.2, rfl⟩
  · left; exact authorizeTx_of_not_flagged tid m now tx h


theorem WF_mkTransaction (d : TxDetails) (now : Int) : WF (mkTransaction d now) := by
  simp [WF, mkTransaction]

theorem extends_refl (ts : StatusTimestamps) : Extends ts ts := fun _ _ h => h

theorem extends_set (ts : StatusTimestamps) (s2 : TransactionStatus) (v : Int)
    (h : ts.get s2 = none) : Extends (ts.set s2 v) ts := by
  intro s t hget
  rw [StatusTimestamps.get_set]
  split
  · next heq => rw [heq, h] at hget; cases hget
  · exact hget

theorem WF_sweepTx (cfg : Config) (now : Int) (tx : Transaction) (hwf : WF tx) :
    WF (sweepTx cfg now tx).1 := by
  cases hst : tx.status
  case SUBMITTED =>
    simp only [WF, hst] at hwf
    obtain ⟨h1, h2, h3, h4, h5, h6⟩ := hwf
    obtain ⟨st, hs⟩ := Option.isSome_iff_exists.mp h1
    rw [sweepTx_of_submitted cfg now st tx hs hst]
    split
    · cases hr : tx.requiresAuth <;>
        simp [WF, StatusTimestamps.set, hs, h2, h3, h4, h5, h6, hr]
    · simp only [WF, hst]; exact ⟨h1, h2, h3, h4, h5, h6⟩
  case CONVERTING =>
    simp only [WF, hst] at hwf
    obtain ⟨h0, h1, h2, h3, h4, h5, h6⟩ := hwf
    obtain ⟨st, hs⟩ := Option.isSome_iff_exists.mp h1
    rw [sweepTx_of_converting cfg now st tx hs hst]
    split
    · simp [WF, StatusTimestamps.set, hs, h0, h2, h3, h4, h5, h6]
    · simp only [WF, hst]; exact ⟨h0, h1, h2, h3, h4, h5, h6⟩
  case FLAGGED_AWAITING_CLEARANCE =>
    rw [sweepTx_of_flagged cfg now tx hst]
    simpa [hst] using hwf
  case CLEARANCE_GRANTED =>
    simp only [WF, hst] at hwf
    obtain ⟨h0, h1, h2, h3, h4, h5, h6⟩ := hwf
    obtain ⟨st, hs⟩ := Option.isSome_iff_exists.mp h1
    obtain ⟨cg, hcg⟩ := Option.isSome_iff_exists.mp h3
    rw [sweepTx_of_clearance_granted cfg now st cg tx hs hcg hst]
    split
    · simp [WF, StatusTimestamps.set, hs, h0, h2, hcg, h4, h5, h6]
    · simp only [WF, hst]; exact ⟨h0, h1, h2, h3, h4, h5, h6⟩
  case IN_TRANSIT =>
    simp only [WF, hst] at hwf
    obtain ⟨h1, h2, h3, hpath⟩ := hwf
    obtain ⟨st, hs⟩ := Option.isSome_iff_exists.mp h1
    rw [sweepTx_of_in_transit cfg now st tx hs hst]
    split
    · rcases hpath with ⟨p1, p2, p3, p4⟩ | ⟨p1, p2, p3, p4⟩ <;>
        simp [WF, StatusTimestamps.set, hs, h2, h3, p1, p2, p3, p4]
    · simp only [WF, hst]; exact ⟨h1, h2, h3, hpath⟩
  case FUNDS_ARRIVED =>
    rw [sweepTx_of_funds_arrived cfg now tx hst]
    simpa [hst] using hwf

theorem WF_authorizeTx (tid : String) (m : AuthMethod) (now : Int) (tx : Transaction)
    (hwf : WF tx) : WF (authorizeTx tid m now tx) := by
  by_cases h : tx.id = tid ∧ tx.status = .FLAGGED_AWAITING_CLEARANCE
  · rw [authorizeTx_of_flagged tid m now tx h.1 h.2]
    simp only [WF, h.2] at hwf
    obtain ⟨h0, h1, h2, h3, h4, h5, h6⟩ := hwf
    obtain ⟨st, hs⟩ := Option.isSome_iff_exists.mp h1
    simp [WF, StatusTimestamps.set, hs, h0, h2, h3, h4, h5, h6]
  · rw [authorizeTx_of_not_flagged tid m now tx h]; exact hwf

theorem sweepTx_extends (cfg : Config) (now : Int) (tx : Transaction) (hwf : WF tx) :
    Extends (sweepTx cfg now tx).1.statusTimestamps tx.statusTimestamps := by
  cases hst : tx.status
  case SUBMITTED =>
    simp only [WF, hst] at hwf
    obtain ⟨h1, h2, h3, h4, h5, h6⟩ := hwf
    obtain ⟨st, hs⟩ := Option.isSome_iff_exists.mp h1
    rw [sweepTx_of_submitted cfg now st tx hs hst]
    split
    · cases hr : tx.requiresAuth <;> simp <;>
        exact extends_set _ _ _ (by simp [StatusTimestamps.get, h2, h3])
    · exact extends_refl _
  case CONVERTING =>
    simp only [WF, hst] at hwf
    obtain ⟨h0, h1, h2, h3, h4, h5, h6⟩ := hwf
    obtain ⟨st, hs⟩ := Option.isSome_iff_exists.mp h1
    rw [sweepTx_of_converting cfg now st tx hs hst]
    split
    · exact extends_set _ _ _ (by simp [StatusTimestamps.get, h5])
    · exact extends_refl _
  case FLAGGED_AWAITING_CLEARANCE =>
    rw [sweepTx_of_flagged cfg now tx hst]; exact extends_refl _
  case CLEARANCE_GRANTED =>
    simp only [WF, hst] at hwf
    obtain ⟨h0, h1, h2, h3, h4, h5, h6⟩ := hwf
    obtain ⟨st, hs⟩ := Option.isSome_iff_exists.mp h1
    obtain ⟨cg, hcg⟩ := Option.isSome_iff_exists.mp h3
    rw [sweepTx_of_clearance_granted cfg now st cg tx hs hcg hst]
    split
    · exact extends_set _ _ _ (by simp [StatusTimestamps.get, h5])
    · exact extends_refl _
  case IN_TRANSIT =>
    simp only [WF, hst] at hwf
    obtain ⟨h1, h2, h3, hpath⟩ := hwf
    obtain ⟨st, hs⟩ := Option.isSome_iff_exists.mp h1
    rw [sweepTx_of_in_transit cfg now st tx hs hst]
    split
    · exact extends_set _ _ _ (by simp [StatusTimestamps.get, h3])
    · exact extends_refl _
  case FUNDS_ARRIVED =>
    rw [sweepTx_of_funds_arrived cfg now tx hst]; exact extends_refl _

theorem authorizeTx_extends (tid : String) (m : AuthMethod) (now : Int) (tx : Transaction)
    (hwf : WF tx) : Extends (authorizeTx tid m now tx).statusTimestamps tx.statusTimestamps := by
  by_cases h : tx.id = tid ∧ tx.status = .FLAGGED_AWAITING_CLEARANCE
  · rw [authorizeTx_of_flagged tid m now tx h.1 h.2]
    simp only [WF, h.2] at hwf
    obtain ⟨h0, h1, h2, h3, h4, h5, h6⟩ := hwf
    exact extends_set _ _ _ (by simp [StatusTimestamps.get, h4])
  · rw [authorizeTx_of_not_flagged tid m now tx h]; exact extends_refl _


theorem step_WF (cfg : Config) (s : BankState) (op : Op)
    (h : ∀ tx ∈ s.transactions, WF tx) :
    ∀ tx ∈ (step cfg s op).transactions, WF tx := by
  cases op with
  | submit d now =>
    intro tx htx
    simp only [step, createTransaction] at htx
    rcases List.mem_cons.mp htx with heq | hmem
    · rw [heq]; exact WF_mkTransaction d now
    · exact h tx hmem
  | sweep now =>
    intro tx htx
    simp only [step, sweepState, sweepLedger] at htx
    obtain ⟨tx0, hmem, heq⟩ := List.mem_map.mp htx
    rw [← heq]; exact WF_sweepTx cfg now tx0 (h tx0 hmem)
  | authorize tid m now =>
    intro tx htx
    simp only [step, authorizeState, authorizeLedger] at htx
    obtain ⟨tx0, hmem, heq⟩ := List.mem_map.mp htx
    rw [← heq]; exact WF_authorizeTx tid m now tx0 (h tx0 hmem)
  | updateRecipient rid data =>
    intro tx htx
    simp only [step, onUpdateRecipient] at htx
    exact h tx htx

theorem foldl_WF (cfg : Config) (ops : List Op) :
    ∀ s : BankState, (∀ tx ∈ s.transactions, WF tx) →
    ∀ tx ∈ (ops.foldl (step cfg) s).transactions, WF tx := by
  induction ops with
  | nil => intro s h; simpa using h
  | cons op rest ih =>
    intro s h
    simp only [List.foldl_cons]
    exact ih (step cfg s op) (step_WF cfg s op h)

theorem run_WF (cfg : Config) (ops : List Op) :
    ∀ tx ∈ (run cfg ops).transactions, WF tx := by
  exact foldl_WF cfg ops initState (by simp [initState])


theorem sweepTx_notif_balance (cfg : Config) (now : Int) (tx : Transaction) (tid : String)
    (hp : cfg.pushTransactions = true) :
    arrivalNotifCount (sweepTx cfg now tx).2 tid +
      (if tx.id = tid ∧ tx.status = TransactionStatus.FUNDS_ARRIVED then 1 else 0) =
    (if (sweepTx cfg now tx).1.id = tid ∧
        (sweepTx cfg now tx).1.status = TransactionStatus.FUNDS_ARRIVED then 1 else 0) := by
  cases hst : tx.status
  case SUBMITTED =>
    cases hs : tx.statusTimestamps.submitted with
    | none => rw [sweepTx_of_no_submitted cfg now tx hs]; simp [arrivalNotifCount, hst]
    | some st =>
      rw [sweepTx_of_submitted cfg now st tx hs hst]
      split
      · cases hr : tx.requiresAuth <;> simp [arrivalNotifCount, hst]
      · simp [arrivalNotifCount, hst]
  case CONVERTING =>
    cases hs : tx.statusTimestamps.submitted with
    | none => rw [sweepTx_of_no_submitted cfg now tx hs]; simp [arrivalNotifCount, hst]
    | some st =>
      rw [sweepTx_of_converting cfg now st tx hs hst]
      split <;> simp [arrivalNotifCount, hst]
  case FLAGGED_AWAITING_CLEARANCE =>
    rw [sweepTx_of_flagged cfg now tx hst]; simp [arrivalNotifCount, hst]
  case CLEARANCE_GRANTED =>
    cases hs : tx.statusTimestamps.submitted with
    | none => rw [sweepTx_of_no_submitted cfg now tx hs]; simp [arrivalNotifCount, hst]
    | some st =>
      cases hcg : tx.statusTimestamps.clearanceGranted with
      | none => rw [sweepTx_of_clearance_granted_none cfg now tx hcg hst]; simp [arrivalNotifCount, hst]
      | some cg =>
        rw [sweepTx_of_clearance_granted cfg now st cg tx hs hcg hst]
        split <;> simp [arrivalNotifCount, hst]
  case IN_TRANSIT =>
    cases hs : tx.statusTimestamps.submitted with
    | none => rw [sweepTx_of_no_submitted cfg now tx hs]; simp [arrivalNotifCount, hst]
    | some st =>
      rw [sweepTx_of_in_transit cfg now st tx hs hst]
      split
      · by_cases hid : tx.id = tid <;>
          cases he : cfg.emailTransactions <;>
            simp [arrivalNotifCount, hst, hp, he, hid, List.countP_cons]
      · simp [arrivalNotifCount, hst]
  case FUNDS_ARRIVED =>
    rw [sweepTx_of_funds_arrived cfg now tx hst]
    simp [arrivalNotifCount, hst]


theorem sweepTx_email_balance (cfg : Config) (now : Int) (tx : Transaction) (tid : String)
    (he : cfg.emailTransactions = true) :
    arrivalEmailCount (sweepTx cfg now tx).2 tid +
      (if tx.id = tid ∧ tx.status = TransactionStatus.FUNDS_ARRIVED then 1 else 0) =
    (if (sweepTx cfg now tx).1.id = tid ∧
        (sweepTx cfg now tx).1.status = TransactionStatus.FUNDS_ARRIVED then 1 else 0) := by
  cases hst : tx.status
  case SUBMITTED =>
    cases hs : tx.statusTimestamps.submitted with
    | none => rw [sweepTx_of_no_submitted cfg now tx hs]; simp [arrivalEmailCount, hst]
    | some st =>
      rw [sweepTx_of_submitted cfg now st tx hs hst]
      split
      · cases hr : tx.requiresAuth <;> simp [arrivalEmailCount, hst]
      · simp [arrivalEmailCount, hst]
  case CONVERTING =>
    cases hs : tx.statusTimestamps.submitted with
    | none => rw [sweepTx_of_no_submitted cfg now tx hs]; simp [arrivalEmailCount, hst]
    | some st =>
      rw [sweepTx_of_converting cfg now st tx hs hst]
      split <;> simp [arrivalEmailCount, hst]
  case FLAGGED_AWAITING_CLEARANCE =>
    rw [sweepTx_of_flagged cfg now tx hst]; simp [arrivalEmailCount, hst]
  case CLEARANCE_GRANTED =>
    cases hs : tx.statusTimestamps.submitted with
    | none => rw [sweepTx_of_no_submitted cfg now tx hs]; simp [arrivalEmailCount, hst]
    | some st =>
      cases hcg : tx.statusTimestamps.clearanceGranted with
      | none => rw [sweepTx_of_clearance_granted_none cfg now tx hcg hst]; simp [arrivalEmailCount, hst]
      | some cg =>
        rw [sweepTx_of_clearance_granted cfg now st cg tx hs hcg hst]
        split <;> simp [arrivalEmailCount, hst]
  case IN_TRANSIT =>
    cases hs : tx.statusTimestamps.submitted with
    | none => rw [sweepTx_of_no_submitted cfg now tx hs]; simp [arrivalEmailCount, hst]
    | some st =>
      rw [sweepTx_of_in_transit cfg now st tx hs hst]
      split
      · by_cases hid : tx.id = tid <;>
          cases hpp : cfg.pushTransactions <;>
            simp [arrivalEmailCount, hst, he, hpp, hid, List.countP_cons]
      · simp [arrivalEmailCount, hst]
  case FUNDS_ARRIVED =>
    rw [sweepTx_of_funds_arrived cfg now tx hst]
    simp [arrivalEmailCount, hst]

theorem sweepLedger_fst_cons (cfg : Config) (now : Int) (hd : Transaction)
    (tl : List Transaction) :
    (sweepLedger cfg now (hd :: tl)).1 = (sweepTx cfg now hd).1 :: (sweepLedger cfg now tl).1 := rfl

theorem sweepLedger_snd_cons (cfg : Config) (now : Int) (hd : Transaction)
    (tl : List Transaction) :
    (sweepLedger cfg now (hd :: tl)).2 = (sweepTx cfg now hd).2 ++ (sweepLedger cfg now tl).2 := rfl

theorem arrivalNotifCount_append (a b : List Effect) (tid : String) :
    arrivalNotifCount (a ++ b) tid = arrivalNotifCount a tid + arrivalNotifCount b tid := by
  simp [arrivalNotifCount, List.countP_append]

theorem arrivalEmailCount_append (a b : List Effect) (tid : String) :
    arrivalEmailCount (a ++ b) tid = arrivalEmailCount a tid + arrivalEmailCount b tid := by
  simp [arrivalEmailCount, List.countP_append]

theorem arrivedCount_cons (hd : Transaction) (tl : List Transaction) (tid : String) :
    arrivedCount (hd :: tl) tid =
      (if hd.id = tid ∧ hd.status = TransactionStatus.FUNDS_ARRIVED then 1 else 0) +
        arrivedCount tl tid := by
  by_cases h : hd.id = tid ∧ hd.status = TransactionStatus.FUNDS_ARRIVED <;>
    simp [arrivedCount, List.countP_cons, h] <;> omega

theorem sweepLedger_notif_balance (cfg : Config) (now : Int) (l : List Transaction)
    (tid : String) (hp : cfg.pushTransactions = true) :
    arrivalNotifCount (sweepLedger cfg now l).2 tid + arrivedCount l tid =
      arrivedCount (sweepLedger cfg now l).1 tid := by
  induction l with
  | nil => simp [sweepLedger, arrivalNotifCount, arrivedCount]
  | cons hd tl ih =>
    have hhd := sweepTx_notif_balance cfg now hd tid hp
    rw [sweepLedger_fst_cons, sweepLedger_snd_cons, arrivalNotifCount_append,
      arrivedCount_cons, arrivedCount_cons]
    omega

theorem sweepLedger_email_balance (cfg : Config) (now : Int) (l : List Transaction)
    (tid : String) (he : cfg.emailTransactions = true) :
    arrivalEmailCount (sweepLedger cfg now l).2 tid + arrivedCount l tid =
      arrivedCount (sweepLedger cfg now l).1 tid := by
  induction l with
  | nil => simp [sweepLedger, arrivalEmailCount, arrivedCount]
  | cons hd tl ih =>
    have hhd := sweepTx_email_balance cfg now hd tid he
    rw [sweepLedger_fst_cons, sweepLedger_snd_cons, arrivalEmailCount_append,
      arrivedCount_cons, arrivedCount_cons]
    omega


theorem authorizeTx_id (tid : String) (m : AuthMethod) (now : Int) (tx : Transaction) :
    (authorizeTx tid m now tx).id = tx.id := by
  conv_lhs => rw [authorizeTx_frame tid m now tx]

theorem authorizeLedger_arrivedCount (tid : String) (m : AuthMethod) (now : Int)
    (l : List Transaction) (tid2 : String) :
    arrivedCount (authorizeLedger tid m now l) tid2 = arrivedCount l tid2 := by
  induction l with
  | nil => rfl
  | cons hd tl ih =>
    have hcons : authorizeLedger tid m now (hd :: tl) =
        authorizeTx tid m now hd :: authorizeLedger tid m now tl := rfl
    rw [hcons, arrivedCount_cons, arrivedCount_cons, ih]
    rcases authorizeTx_status_step tid m now hd with heq | ⟨hbefore, hafter⟩
    · rw [heq]
    · rw [authorizeTx_id, hbefore, hafter]
      simp

theorem step_balance (cfg : Config) (hp : cfg.pushTransactions = true)
    (he : cfg.emailTransactions = true) (s : BankState) (op : Op) (tid : String)
    (h1 : arrivalNotifCount s.effects tid = arrivedCount s.transactions tid)
    (h2 : arrivalEmailCount s.effects tid = arrivedCount s.transactions tid) :
    arrivalNotifCount (step cfg s op).effects tid = arrivedCount (step cfg s op).transactions tid ∧
    arrivalEmailCount (step cfg s op).effects tid = arrivedCount (step cfg s op).transactions tid := by
  cases op with
  | submit d now =>
    have hfx : (step cfg s (Op.submit d now)).effects = s.effects ++
        ([Effect.transferSubmittedNotification (mkTransaction d now).id] ++
         (if cfg.emailTransactions then [Effect.transactionReceiptEmail (mkTransaction d now).id] else []) ++
         (if cfg.smsTransactions then [Effect.transactionReceiptSms (mkTransaction d now).id] else [])) := rfl
    have htx : (step cfg s (Op.submit d now)).transactions =
        mkTransaction d now :: s.transactions := rfl
    have hind : (if (mkTransaction d now).id = tid ∧
        (mkTransaction d now).status = TransactionStatus.FUNDS_ARRIVED then 1 else 0) = 0 := by
      simp [mkTransaction]
    constructor
    · rw [hfx, htx, arrivalNotifCount_append, arrivedCount_cons, hind]
      have hz : arrivalNotifCount
          ([Effect.transferSubmittedNotification (mkTransaction d now).id] ++
           (if cfg.emailTransactions then [Effect.transactionReceiptEmail (mkTransaction d now).id] else []) ++
           (if cfg.smsTransactions then [Effect.transactionReceiptSms (mkTransaction d now).id] else [])) tid = 0 := by
        cases cfg.emailTransactions <;> cases cfg.smsTransactions <;> simp [arrivalNotifCount]
      omega
    · rw [hfx, htx, arrivalEmailCount_append, arrivedCount_cons, hind]
      have hz : arrivalEmailCount
          ([Effect.transferSubmittedNotification (mkTransaction d now).id] ++
           (if cfg.emailTransactions then [Effect.transactionReceiptEmail (mkTransaction d now).id] else []) ++
           (if cfg.smsTransactions then [Effect.transactionReceiptSms (mkTransaction d now).id] else [])) tid = 0 := by
        cases cfg.emailTransactions <;> cases cfg.smsTransactions <;> simp [arrivalEmailCount]
      omega
  | sweep now =>
    have hfx : (step cfg s (Op.sweep now)).effects =
        s.effects ++ (sweepLedger cfg now s.transactions).2 := rfl
    have htx : (step cfg s (Op.sweep now)).transactions =
        (sweepLedger cfg now s.transactions).1 := rfl
    have hn := sweepLedger_notif_balance cfg now s.transactions tid hp
    have hem := sweepLedger_email_balance cfg now s.transactions tid he
    constructor
    · rw [hfx, htx, arrivalNotifCount_append]; omega
    · rw [hfx, htx, arrivalEmailCount_append]; omega
  | authorize tid2 m now =>
    have hfx : (step cfg s (Op.authorize tid2 m now)).effects = s.effects := rfl
    have htx : (step cfg s (Op.authorize tid2 m now)).transactions =
        authorizeLedger tid2 m now s.transactions := rfl
    rw [hfx, htx, authorizeLedger_arrivedCount]
    exact ⟨h1, h2⟩
  | updateRecipient rid data =>
    have hfx : (step cfg s (Op.updateRecipient rid data)).effects =
        s.effects ++ [Effect.recipientUpdatedNotification data.fullName] := rfl
    have htx : (step cfg s (Op.updateRecipient rid data)).transactions = s.transactions := rfl
    constructor
    · rw [hfx, htx, arrivalNotifCount_append]
      have hz : arrivalNotifCount [Effect.recipientUpdatedNotification data.fullName] tid = 0 := by
        simp [arrivalNotifCount]
      omega
    · rw [hfx, htx, arrivalEmailCount_append]
      have hz : arrivalEmailCount [Effect.recipientUpdatedNotification data.fullName] tid = 0 := by
        simp [arrivalEmailCount]
      omega

theorem foldl_balance (cfg : Config) (hp : cfg.pushTransactions = true)
    (he : cfg.emailTransactions = true) (ops : List Op) (tid : String) :
    ∀ s : BankState,
    arrivalNotifCount s.effects tid = arrivedCount s.transactions tid →
    arrivalEmailCount s.effects tid = arrivedCount s.transactions tid →
    arrivalNotifCount (ops.foldl (step cfg) s).effects tid =
        arrivedCount (ops.foldl (step cfg) s).transactions tid ∧
    arrivalEmailCount (ops.foldl (step cfg) s).effects tid =
        arrivedCount (ops.foldl (step cfg) s).transactions tid := by
  induction ops with
  | nil => intro s ha hb; exact ⟨ha, hb⟩
  | cons op rest ih =>
    intro s ha hb
    simp only [List.foldl_cons]
    obtain ⟨ha2, hb2⟩ := step_balance cfg hp he s op tid ha hb
    exact ih (step cfg s op) ha2 hb2


theorem applyTxOp_requiresAuth (cfg : Config) (tx : Transaction) (op : TxOp) :
    (applyTxOp cfg tx op).requiresAuth = tx.requiresAuth := by
  cases op with
  | sweep now => exact sweepTx_requiresAuth cfg now tx
  | auth m now =>
    show (authorizeTx tx.id m now tx).requiresAuth = tx.requiresAuth
    conv_lhs => rw [authorizeTx_frame tx.id m now tx]

theorem applyTxOp_not_converting (cfg : Config) (tx : Transaction) (op : TxOp)
    (hr : tx.requiresAuth = true) (hnc : tx.status ≠ .CONVERTING) :
    (applyTxOp cfg tx op).status ≠ .CONVERTING := by
  cases op with
  | sweep now =>
    show (sweepTx cfg now tx).1.status ≠ .CONVERTING
    rcases sweepTx_status_step cfg now tx with heq | ⟨_, _, hres⟩ | ⟨_, hfalse, _⟩ |
      ⟨hc, _⟩ | ⟨_, hres⟩ | ⟨_, hres⟩
    · rw [heq]; exact hnc
    · rw [hres]; simp
    · rw [hr] at hfalse; cases hfalse
    · exact absurd hc hnc
    · rw [hres]; simp
    · rw [hres]; simp
  | auth m now =>
    show (authorizeTx tx.id m now tx).status ≠ .CONVERTING
    rcases authorizeTx_status_step tx.id m now tx with heq | ⟨_, hres⟩
    · rw [heq]; exact hnc
    · rw [hres]; simp

theorem applyTxOp_pre_clearance (cfg : Config) (tx : Transaction) (now : Int)
    (hr : tx.requiresAuth = true)
    (h : tx.status = .SUBMITTED ∨ tx.status = .FLAGGED_AWAITING_CLEARANCE) :
    (sweepTx cfg now tx).1.status = .SUBMITTED ∨
      (sweepTx cfg now tx).1.status = .FLAGGED_AWAITING_CLEARANCE := by
  rcases sweepTx_status_step cfg now tx with heq | ⟨_, _, hres⟩ | ⟨_, hfalse, _⟩ |
    ⟨hc, _⟩ | ⟨hc, _⟩ | ⟨hc, _⟩
  · rw [heq]; exact h
  · right; exact hres
  · rw [hr] at hfalse; cases hfalse
  · rcases h with h | h <;> rw [h] at hc <;> cases hc
  · rcases h with h | h <;> rw [h] at hc <;> cases hc
  · rcases h with h | h <;> rw [h] at hc <;> cases hc

theorem applyTxOps_no_auth (cfg : Config) (ops : List TxOp) :
    ∀ tx : Transaction, tx.requiresAuth = true →
    (tx.status = .SUBMITTED ∨ tx.status = .FLAGGED_AWAITING_CLEARANCE) →
    (∀ (m : AuthMethod) (now : Int), TxOp.auth m now ∉ ops) →
    ((applyTxOps cfg tx ops).status = .SUBMITTED ∨
     (applyTxOps cfg tx ops).status = .FLAGGED_AWAITING_CLEARANCE) := by
  induction ops with
  | nil => intro tx _ h _; exact h
  | cons op rest ih =>
    intro tx hr h hno
    have hstep : applyTxOps cfg tx (op :: rest) = applyTxOps cfg (applyTxOp cfg tx op) rest := by
      simp [applyTxOps]
    rw [hstep]
    cases op with
    | sweep now =>
      apply ih
      · rw [applyTxOp_requiresAuth]; exact hr
      · exact applyTxOp_pre_clearance cfg tx now hr h
      · intro m now2 hmem
        exact hno m now2 (List.mem_cons_of_mem _ hmem)
    | auth m now =>
      exact absurd (List.mem_cons_self _ _) (hno m now)

theorem applyTxOps_reach_in_transit (cfg : Config) (ops : List TxOp) :
    ∀ tx : Transaction, tx.requiresAuth = true → tx.status ≠ .CONVERTING →
    ((applyTxOps cfg tx ops).status = .IN_TRANSIT ∨
     (applyTxOps cfg tx ops).status = .FUNDS_ARRIVED) →
    (tx.status = .IN_TRANSIT ∨ tx.status = .FUNDS_ARRIVED) ∨
    ∃ pre suf, ops = pre ++ suf ∧ (applyTxOps cfg tx pre).status = .CLEARANCE_GRANTED := by
  induction ops with
  | nil =>
    intro tx _ _ h
    left; exact h
  | cons op rest ih =>
    intro tx hr hnc h
    have hstep : applyTxOps cfg tx (op :: rest) = applyTxOps cfg (applyTxOp cfg tx op) rest := by
      simp [applyTxOps]
    rw [hstep] at h
    have hr1 : (applyTxOp cfg tx op).requiresAuth = true := by
      rw [applyTxOp_requiresAuth]; exact hr
    have hnc1 : (applyTxOp cfg tx op).status ≠ .CONVERTING :=
      applyTxOp_not_converting cfg tx op hr hnc
    rcases ih (applyTxOp cfg tx op) hr1 hnc1 h with hin | ⟨pre, suf, heq, hcg⟩
    · by_cases htx : tx.status = .IN_TRANSIT ∨ tx.status = .FUNDS_ARRIVED
      · left; exact htx
      · right
        refine ⟨[], op :: rest, rfl, ?_⟩
        show tx.status = .CLEARANCE_GRANTED
        cases op with
        | sweep now =>
          rcases sweepTx_status_step cfg now tx with heq2 | ⟨_, _, hres⟩ | ⟨_, hfalse, _⟩ |
            ⟨hc, _⟩ | ⟨hc, _⟩ | ⟨hc, _⟩
          · rw [show applyTxOp cfg tx (TxOp.sweep now) = (sweepTx cfg now tx).1 from rfl, heq2] at hin
            exact absurd hin htx
          · rw [show applyTxOp cfg tx (TxOp.sweep now) = (sweepTx cfg now tx).1 from rfl, hres] at hin
            rcases hin with hin | hin <;> cases hin
          · rw [hr] at hfalse; cases hfalse
          · exact absurd hc hnc
          · exact absurd (Or.inl hc) htx
          · exact hc
        | auth m now =>
          rcases authorizeTx_status_step tx.id m now tx with heq2 | ⟨_, hres⟩
          · rw [show applyTxOp cfg tx (TxOp.auth m now) = authorizeTx tx.id m now tx from rfl, heq2] at hin
            exact absurd hin htx
          · rw [show applyTxOp cfg tx (TxOp.auth m now) = authorizeTx tx.id m now tx from rfl, hres] at hin
            rcases hin with hin | hin <;> cases hin
    · right
      refine ⟨op :: pre, suf, by rw [List.cons_append, heq], ?_⟩
      have hpre : applyTxOps cfg tx (op :: pre) = applyTxOps cfg (applyTxOp cfg tx op) pre := by
        simp [applyTxOps]
      rw [hpre]; exact hcg


theorem authorizeLedger_cons (tid : String) (m : AuthMethod) (now : Int)
    (hd : Transaction) (tl : List Transaction) :
    authorizeLedger tid m now (hd :: tl) =
      authorizeTx tid m now hd :: authorizeLedger tid m now tl := rfl

theorem authorizeLedger_no_match (tid : String) (m : AuthMethod) (now : Int)
    (l : List Transaction)
    (h : ∀ tx ∈ l, ¬(tx.id = tid ∧ tx.status = .FLAGGED_AWAITING_CLEARANCE)) :
    authorizeLedger tid m now l = l := by
  induction l with
  | nil => rfl
  | cons hd tl ih =>
    rw [authorizeLedger_cons,
      authorizeTx_of_not_flagged tid m now hd (h hd (List.mem_cons_self _ _)),
      ih (fun tx htx => h tx (List.mem_cons_of_mem _ htx))]

theorem authorizeLedger_set (tid : String) (m : AuthMethod) (now : Int) :
    ∀ (l : List Transaction) (i : Nat) (tx : Transaction), l[i]? = some tx →
    tx.id = tid → tx.status = .FLAGGED_AWAITING_CLEARANCE →
    (l.map (fun t => t.id)).Nodup →
    authorizeLedger tid m now l = l.set i
      { tx with
          status := .CLEARANCE_GRANTED,
          statusTimestamps := tx.statusTimestamps.set .CLEARANCE_GRANTED now,
          clearanceFeePaid := some (decide (m = AuthMethod.fee)) } := by
  intro l
  induction l with
  | nil => intro i tx h; simp at h
  | cons hd tl ih =>
    intro i tx hget hid hst hnd
    have hnd1 : hd.id ∉ tl.map (fun t => t.id) := (List.nodup_cons.mp hnd).1
    have hnd2 : (tl.map (fun t => t.id)).Nodup := (List.nodup_cons.mp hnd).2
    cases i with
    | zero =>
      have hhd : hd = tx := by simpa using hget
      subst hhd
      rw [authorizeLedger_cons, authorizeTx_of_flagged tid m now hd hid hst]
      have htl : authorizeLedger tid m now tl = tl := by
        apply authorizeLedger_no_match
        intro t ht hcontra
        apply hnd1
        rw [hid, ← hcontra.1]
        exact List.mem_map_of_mem _ ht
      rw [htl]
      rfl
    | succ n =>
      have hget2 : tl[n]? = some tx := by simpa using hget
      have htxmem : tx ∈ tl := by
        have := List.getElem?_eq_some_iff.mp hget2
        obtain ⟨hlt, heq⟩ := this
        exact heq ▸ List.getElem_mem _
      have hhd : ¬(hd.id = tid ∧ hd.status = .FLAGGED_AWAITING_CLEARANCE) := by
        intro hcontra
        apply hnd1
        rw [hcontra.1, ← hid]
        exact List.mem_map_of_mem _ htxmem
      rw [authorizeLedger_cons, authorizeTx_of_not_flagged tid m now hd hhd,
        ih n tx hget2 hid hst hnd2]
      rfl


/-- C1 (counterexample): the claim says that outside the three listed
transitions the sweep leaves a transaction unchanged, but a transaction in
`CLEARANCE_GRANTED` — a status outside the three listed source statuses —
is changed by the sweep once past its threshold. -/
theorem c1_counterexample :
    txCG.status ≠ TransactionStatus.SUBMITTED ∧
    txCG.status ≠ TransactionStatus.CONVERTING ∧
    txCG.status ≠ TransactionStatus.IN_TRANSIT ∧
    (sweepTx cfgOn 20000 txCG).1 ≠ txCG ∧
    (sweepTx cfgOn 20000 txCG).1.status = TransactionStatus.IN_TRANSIT := by
  decide

/-- C1 (amended): with elapsed measured from the `SUBMITTED` timestamp, a
sweep moves `SUBMITTED` to `FLAGGED_AWAITING_CLEARANCE` (if `requiresAuth`)
or `CONVERTING` (otherwise) exactly when elapsed > 4s, `CONVERTING` to
`IN_TRANSIT` exactly when elapsed > 8s, `IN_TRANSIT` to `FUNDS_ARRIVED`
exactly when elapsed > 15s, and — the case the original claim omits —
`CLEARANCE_GRANTED` to `IN_TRANSIT` exactly when elapsed exceeds the
clearance offset plus 4s; in every remaining case the transaction is
unchanged. -/
theorem c1_sweep_step_characterization (cfg : Config) (now st : Int) (tx : Transaction)
    (hs : tx.statusTimestamps.submitted = some st) :
    (tx.status = .SUBMITTED →
       (sweepTx cfg now tx).1 =
         if now - st > 4000 then
           { tx with
               status := if tx.requiresAuth then .FLAGGED_AWAITING_CLEARANCE else .CONVERTING,
               statusTimestamps := tx.statusTimestamps.set
                 (if tx.requiresAuth then .FLAGGED_AWAITING_CLEARANCE else .CONVERTING) now }
         else tx)
  ∧ (tx.status = .CONVERTING →
       (sweepTx cfg now tx).1 =
         if now - st > 8000 then
           { tx with
               status := .IN_TRANSIT,
               statusTimestamps := tx.statusTimestamps.set .IN_TRANSIT now }
         else tx)
  ∧ (tx.status = .IN_TRANSIT →
       (sweepTx cfg now tx).1 =
         if now - st > 15000 then
           { tx with
               status := .FUNDS_ARRIVED,
               statusTimestamps := tx.statusTimestamps.set .FUNDS_ARRIVED now }
         else tx)
  ∧ (tx.status = .FLAGGED_AWAITING_CLEARANCE → (sweepTx cfg now tx).1 = tx)
  ∧ (tx.status = .FUNDS_ARRIVED → (sweepTx cfg now tx).1 = tx)
  ∧ (∀ cg : Int, tx.statusTimestamps.clearanceGranted = some cg →
       tx.status = .CLEARANCE_GRANTED →
       (sweepTx cfg now tx).1 =
         if now - st > (cg - st) + 4000 then
           { tx with
               status := .IN_TRANSIT,
               statusTimestamps := tx.statusTimestamps.set .IN_TRANSIT now }
         else tx) := by
  refine ⟨?_, ?_, ?_, ?_, ?_, ?_⟩
  · intro h
    rw [sweepTx_of_submitted cfg now st tx hs h]
    split <;> rfl
  · intro h
    rw [sweepTx_of_converting cfg now st tx hs h]
    split <;> rfl
  · intro h
    rw [sweepTx_of_in_transit cfg now st tx hs h]
    split <;> rfl
  · intro h
    rw [sweepTx_of_flagged cfg now tx h]
  · intro h
    rw [sweepTx_of_funds_arrived cfg now tx h]
  · intro cg hcg h
    rw [sweepTx_of_clearance_granted cfg now st cg tx hs hcg h]
    split <;> rfl

/-- C1 (witness): the characterization applied to a fresh unauthorized
transaction swept 5 seconds after submission. -/
theorem c1_witness :
    (sweepTx cfgOn 5000 tx0).1 =
      { tx0 with
          status := TransactionStatus.CONVERTING,
          statusTimestamps := tx0.statusTimestamps.set TransactionStatus.CONVERTING 5000 } := by
  have h := (c1_sweep_step_characterization cfgOn 5000 0 tx0 rfl).1 rfl
  simpa [tx0, mkTransaction, d0] using h


/-- C2: `FUNDS_ARRIVED` is absorbing — a sweep returns the record
unchanged with no side effects, an authorize call leaves it unchanged, and
no operation removes the record from the ledger. -/
theorem c2_funds_arrived_absorbing (cfg : Config) (tx : Transaction)
    (h : tx.status = TransactionStatus.FUNDS_ARRIVED) :
    (∀ now : Int, sweepTx cfg now tx = (tx, []))
  ∧ (∀ (tid : String) (m : AuthMethod) (now : Int), authorizeTx tid m now tx = tx)
  ∧ (∀ (s : BankState) (op : Op), tx ∈ s.transactions → tx ∈ (step cfg s op).transactions) := by
  refine ⟨fun now => sweepTx_of_funds_arrived cfg now tx h, ?_, ?_⟩
  · intro tid m now
    apply authorizeTx_of_not_flagged
    intro hcontra
    rw [h] at hcontra
    cases hcontra.2
  · intro s op hmem
    cases op with
    | submit d now => exact List.mem_cons_of_mem _ hmem
    | sweep now =>
      show tx ∈ (sweepLedger cfg now s.transactions).1
      have : (sweepTx cfg now tx).1 = tx := by
        rw [sweepTx_of_funds_arrived cfg now tx h]
      rw [show (sweepLedger cfg now s.transactions).1 =
        s.transactions.map (fun t => (sweepTx cfg now t).1) from rfl]
      rw [← this]
      exact List.mem_map_of_mem _ hmem
    | authorize tid m now =>
      show tx ∈ authorizeLedger tid m now s.transactions
      have : authorizeTx tid m now tx = tx := by
        apply authorizeTx_of_not_flagged
        intro hcontra
        rw [h] at hcontra
        cases hcontra.2
      rw [← this]
      exact List.mem_map_of_mem _ hmem
    | updateRecipient rid data => exact hmem

/-- C2 (witness): the absorption theorem applied to a concrete arrived
transaction. -/
theorem c2_witness :
    sweepTx cfgOn 99999 txFA = (txFA, []) ∧
    authorizeTx "txn_0" AuthMethod.fee 99999 txFA = txFA := by
  have h := c2_funds_arrived_absorbing cfgOn txFA (by decide)
  exact ⟨h.1 99999, h.2.1 "txn_0" AuthMethod.fee 99999⟩

/-- C3: Authorize is a silent no-op on the whole state unless some ledger
record has the given id and is in `FLAGGED_AWAITING_CLEARANCE`; it never
touches recipients or fires effects; and when the (unique-id) matching
record is flagged, the new ledger replaces exactly that record, with
status `CLEARANCE_GRANTED`, a `CLEARANCE_GRANTED` timestamp entry, and
`clearanceFeePaid = (method == fee)`, all other fields and records
unchanged. -/
theorem c3_authorize_spec (tid : String) (m : AuthMethod) (now : Int) (s : BankState) :
    ((∀ tx ∈ s.transactions,
        ¬(tx.id = tid ∧ tx.status = TransactionStatus.FLAGGED_AWAITING_CLEARANCE)) →
       authorizeState tid m now s = s)
  ∧ (authorizeState tid m now s).recipients = s.recipients
  ∧ (authorizeState tid m now s).effects = s.effects
  ∧ (∀ (i : Nat) (tx : Transaction), s.transactions[i]? = some tx →
       tx.id = tid → tx.status = TransactionStatus.FLAGGED_AWAITING_CLEARANCE →
       (s.transactions.map (fun t => t.id)).Nodup →
       (authorizeState tid m now s).transactions =
         s.transactions.set i
           { tx with
               status := TransactionStatus.CLEARANCE_GRANTED,
               statusTimestamps := tx.statusTimestamps.set
                 TransactionStatus.CLEARANCE_GRANTED now,
               clearanceFeePaid := some (decide (m = AuthMethod.fee)) }) := by
  refine ⟨?_, rfl, rfl, ?_⟩
  · intro h
    show { s with transactions := authorizeLedger tid m now s.transactions } = s
    rw [authorizeLedger_no_match tid m now s.transactions h]
  · intro i tx hget hid hst hnd
    exact authorizeLedger_set tid m now s.transactions i tx hget hid hst hnd

/-- C3 (witness): authorizing a two-record ledger whose first record is
flagged rewrites exactly that record. -/
theorem c3_witness :
    (authorizeState "txn_0" AuthMethod.fee 9000
        { transactions := [txFlag, txSub1], recipients := [], effects := [] }).transactions =
      [{ txFlag with
           status := TransactionStatus.CLEARANCE_GRANTED,
           statusTimestamps := txFlag.statusTimestamps.set
             TransactionStatus.CLEARANCE_GRANTED 9000,
           clearanceFeePaid := some true }, txSub1] := by
  have h := (c3_authorize_spec "txn_0" AuthMethod.fee 9000
      { transactions := [txFlag, txSub1], recipients := [], effects := [] }).2.2.2
      0 txFlag (by decide) (by decide) (by decide) (by decide)
  simpa using h


/-- C4 (counterexample): with the user's transaction channels disabled,
the run submit–sweep(5s)–sweep(9s)–sweep(16s) drives the transaction to
`FUNDS_ARRIVED`, yet the effect log holds no funds-arrived notification
and no funds-arrived email — the claimed unconditional emission on the
`IN_TRANSIT → FUNDS_ARRIVED` edge fails. -/
theorem c4_counterexample :
    (run cfgOff ops4).transactions = [txFA] ∧
    txFA.status = TransactionStatus.FUNDS_ARRIVED ∧
    (run cfgOff ops4).effects = [Effect.transferSubmittedNotification "txn_0"] ∧
    arrivalNotifCount (run cfgOff ops4).effects "txn_0" = 0 ∧
    arrivalEmailCount (run cfgOff ops4).effects "txn_0" = 0 := by
  decide

/-- C4 (amended): provided the push-notification and email transaction
channels are enabled, over every operation sequence the number of
funds-arrived notifications (and of funds-arrived receipt emails) tagged
with an id equals the number of ledger records with that id in
`FUNDS_ARRIVED` — the arrival side effects fire exactly once per arriving
transaction; and `FUNDS_ARRIVED` is entered by a sweep only from
`IN_TRANSIT` and never by an authorize call, so those effects occur only
on the `IN_TRANSIT → FUNDS_ARRIVED` edge. -/
theorem c4_arrival_side_effects (cfg : Config) (hp : cfg.pushTransactions = true)
    (he : cfg.emailTransactions = true) (ops : List Op) (tid : String) :
    (arrivalNotifCount (run cfg ops).effects tid = arrivedCount (run cfg ops).transactions tid)
  ∧ (arrivalEmailCount (run cfg ops).effects tid = arrivedCount (run cfg ops).transactions tid)
  ∧ (∀ (now : Int) (tx : Transaction),
       (sweepTx cfg now tx).1.status = TransactionStatus.FUNDS_ARRIVED →
       tx.status = TransactionStatus.IN_TRANSIT ∨
         tx.status = TransactionStatus.FUNDS_ARRIVED)
  ∧ (∀ (tid2 : String) (m : AuthMethod) (now : Int) (tx : Transaction),
       (authorizeTx tid2 m now tx).status = TransactionStatus.FUNDS_ARRIVED →
       tx.status = TransactionStatus.FUNDS_ARRIVED) := by
  obtain ⟨ha, hb⟩ := foldl_balance cfg hp he ops tid initState rfl rfl
  refine ⟨ha, hb, ?_, ?_⟩
  · intro now tx h
    rcases sweepTx_status_step cfg now tx with heq | ⟨_, _, hres⟩ | ⟨_, _, hres⟩ |
      ⟨_, hres⟩ | ⟨hc, _⟩ | ⟨_, hres⟩
    · right; rw [heq] at h; exact h
    · rw [hres] at h; cases h
    · rw [hres] at h; cases h
    · rw [hres] at h; cases h
    · left; exact hc
    · rw [hres] at h; cases h
  · intro tid2 m now tx h
    rcases authorizeTx_status_step tid2 m now tx with heq | ⟨_, hres⟩
    · rw [heq] at h; exact h
    · rw [hres] at h; cases h

/-- C4 (witness): the count equality evaluated on the enabled-channel run
that drives one transaction to arrival. -/
theorem c4_witness :
    arrivalNotifCount (run cfgOn ops4).effects "txn_0" =
      arrivedCount (run cfgOn ops4).transactions "txn_0" ∧
    arrivalEmailCount (run cfgOn ops4).effects "txn_0" =
      arrivedCount (run cfgOn ops4).transactions "txn_0" ∧
    arrivedCount (run cfgOn ops4).transactions "txn_0" = 1 := by
  have h := c4_arrival_side_effects cfgOn rfl rfl ops4 "txn_0"
  exact ⟨h.1, h.2.1, by decide⟩

/-- C5: for a transaction in `CLEARANCE_GRANTED`, a sweep advances it to
`IN_TRANSIT` exactly when elapsed-since-`SUBMITTED` exceeds the
submission-to-clearance offset plus 4 seconds (all in the shared
elapsed-since-submission basis; times in milliseconds). -/
theorem c5_clearance_granted_threshold (cfg : Config) (now st cg : Int) (tx : Transaction)
    (hs : tx.statusTimestamps.submitted = some st)
    (hcg : tx.statusTimestamps.clearanceGranted = some cg)
    (h : tx.status = TransactionStatus.CLEARANCE_GRANTED) :
    ((sweepTx cfg now tx).1.status = TransactionStatus.IN_TRANSIT ↔
      now - st > (cg - st) + 4000) := by
  rw [sweepTx_of_clearance_granted cfg now st cg tx hs hcg h]
  split
  · next hc => simpa using hc
  · next hc => simp [h, hc]

/-- C5 (witness): the threshold evaluated on a concrete cleared
transaction (submitted at 0, cleared at 8000) swept at 20000. -/
theorem c5_witness :
    (sweepTx cfgOn 20000 txCG).1.status = TransactionStatus.IN_TRANSIT :=
  (c5_clearance_granted_threshold cfgOn 20000 0 8000 txCG (by decide) (by decide)
    (by decide)).mpr (by decide)


/-- C6: a transaction created with `requiresAuth = true` stays in
`SUBMITTED`/`FLAGGED_AWAITING_CLEARANCE` under any sequence of operations
containing no authorize call; if it ever reaches `IN_TRANSIT` (or beyond)
there is a prefix of the operations after which it was in
`CLEARANCE_GRANTED`; and `FLAGGED_AWAITING_CLEARANCE` has no time-based
exit — a sweep leaves a flagged record untouched. -/
theorem c6_requires_auth_gating (cfg : Config) (d : TxDetails) (t0 : Int)
    (ops : List TxOp) (hauth : d.requiresAuth = true) :
    ((∀ (m : AuthMethod) (now : Int), TxOp.auth m now ∉ ops) →
       ((applyTxOps cfg (mkTransaction d t0) ops).status = TransactionStatus.SUBMITTED ∨
        (applyTxOps cfg (mkTransaction d t0) ops).status =
          TransactionStatus.FLAGGED_AWAITING_CLEARANCE))
  ∧ (((applyTxOps cfg (mkTransaction d t0) ops).status = TransactionStatus.IN_TRANSIT ∨
      (applyTxOps cfg (mkTransaction d t0) ops).status = TransactionStatus.FUNDS_ARRIVED) →
       ∃ pre suf, ops = pre ++ suf ∧
         (applyTxOps cfg (mkTransaction d t0) pre).status =
           TransactionStatus.CLEARANCE_GRANTED)
  ∧ (∀ (now : Int) (tx : Transaction),
       tx.status = TransactionStatus.FLAGGED_AWAITING_CLEARANCE →
       sweepTx cfg now tx = (tx, [])) := by
  have hra : (mkTransaction d t0).requiresAuth = true := hauth
  refine ⟨?_, ?_, ?_⟩
  · intro hno
    exact applyTxOps_no_auth cfg ops (mkTransaction d t0) hra (Or.inl rfl) hno
  · intro h
    rcases applyTxOps_reach_in_transit cfg ops (mkTransaction d t0) hra
        (by intro hc; cases hc) h with hin | hex
    · rcases hin with hin | hin <;> cases hin
    · exact hex
  · intro now tx h
    exact sweepTx_of_flagged cfg now tx h

/-- C6 (witness): the gating theorem evaluated on a flagged submission
swept once with no authorize call. -/
theorem c6_witness :
    (applyTxOps cfgOn (mkTransaction dAuth 0) [TxOp.sweep 5000]).status =
        TransactionStatus.SUBMITTED ∨
      (applyTxOps cfgOn (mkTransaction dAuth 0) [TxOp.sweep 5000]).status =
        TransactionStatus.FLAGGED_AWAITING_CLEARANCE :=
  (c6_requires_auth_gating cfgOn dAuth 0 [TxOp.sweep 5000] rfl).1
    (by intro m now h; simp at h)

/-- C7: every ledger record of any run is well formed — its
`statusTimestamps` holds exactly one entry per status on the path actually
taken to the current status (so the current status always has an entry) —
and both the sweep and the authorize operation only extend the timestamp
map of a well-formed record: no entry, once set, is ever lost or
overwritten; the terminal status is entered at most once (the sweep
no-ops on it forever after). -/
theorem c7_status_timestamps_audit (cfg : Config) :
    (∀ ops : List Op, ∀ tx ∈ (run cfg ops).transactions, WF tx)
  ∧ (∀ (now : Int) (tx : Transaction), WF tx →
       Extends (sweepTx cfg now tx).1.statusTimestamps tx.statusTimestamps)
  ∧ (∀ (tid : String) (m : AuthMethod) (now : Int) (tx : Transaction), WF tx →
       Extends (authorizeTx tid m now tx).statusTimestamps tx.statusTimestamps)
  ∧ (∀ (now : Int) (tx : Transaction),
       tx.status = TransactionStatus.FUNDS_ARRIVED → sweepTx cfg now tx = (tx, [])) :=
  ⟨fun ops => run_WF cfg ops,
   fun now tx hwf => sweepTx_extends cfg now tx hwf,
   fun tid m now tx hwf => authorizeTx_extends tid m now tx hwf,
   fun now tx h => sweepTx_of_funds_arrived cfg now tx h⟩

/-- C7 (witness): well-formedness of the concrete arrived record produced
by the submit-and-three-sweeps run. -/
theorem c7_witness : WF txFA :=
  (c7_status_timestamps_audit cfgOff).1 ops4 txFA (by decide)

/-- C8: Submit never fails — for every input it returns the created
record, that record starts in `SUBMITTED` with a `SUBMITTED` timestamp
entry equal to the creation time, its recipient is the supplied snapshot,
and the new ledger is exactly the created record prepended to the old
ledger (so every previously present record is unchanged). -/
theorem c8_submit_total (cfg : Config) (d : TxDetails) (now : Int) (s : BankState) :
    (createTransaction cfg d now s).1 = some (mkTransaction d now)
  ∧ (mkTransaction d now).status = TransactionStatus.SUBMITTED
  ∧ (mkTransaction d now).statusTimestamps.get TransactionStatus.SUBMITTED = some now
  ∧ (mkTransaction d now).recipient = d.recipient
  ∧ (createTransaction cfg d now s).2.transactions = mkTransaction d now :: s.transactions :=
  ⟨rfl, rfl, rfl, rfl, rfl⟩

/-- C9: the recipient embedded in a transaction is a creation-time
snapshot — the recipient-update operation rewrites the recipient list but
leaves the transaction ledger, and hence every embedded recipient,
exactly as it was. -/
theorem c9_recipient_snapshot (rid : String) (data : RecipientData) (s : BankState) :
    (onUpdateRecipient rid data s).transactions = s.transactions
  ∧ (onUpdateRecipient rid data s).transactions.map (fun tx => tx.recipient) =
      s.transactions.map (fun tx => tx.recipient) :=
  ⟨rfl, rfl⟩

/-- C10: one sweep advances a `SUBMITTED` transaction at most one state —
whatever the elapsed time it can only stay `SUBMITTED` or move to
`CONVERTING` or `FLAGGED_AWAITING_CLEARANCE`, never jump to `IN_TRANSIT`
or `FUNDS_ARRIVED` — and even two sweeps can never take it to
`FUNDS_ARRIVED`, so reaching `FUNDS_ARRIVED` needs at least three sweeps. -/
theorem c10_one_state_per_sweep (cfg : Config) (n1 n2 : Int) (tx : Transaction)
    (h : tx.status = TransactionStatus.SUBMITTED) :
    ((sweepTx cfg n1 tx).1.status = TransactionStatus.SUBMITTED ∨
     (sweepTx cfg n1 tx).1.status = TransactionStatus.CONVERTING ∨
     (sweepTx cfg n1 tx).1.status = TransactionStatus.FLAGGED_AWAITING_CLEARANCE)
  ∧ (sweepTx cfg n2 (sweepTx cfg n1 tx).1).1.status ≠ TransactionStatus.FUNDS_ARRIVED := by
  have h1 : (sweepTx cfg n1 tx).1.status = TransactionStatus.SUBMITTED ∨
      (sweepTx cfg n1 tx).1.status = TransactionStatus.CONVERTING ∨
      (sweepTx cfg n1 tx).1.status = TransactionStatus.FLAGGED_AWAITING_CLEARANCE := by
    rcases sweepTx_status_step cfg n1 tx with heq | ⟨_, _, hres⟩ | ⟨_, _, hres⟩ |
      ⟨hc, _⟩ | ⟨hc, _⟩ | ⟨hc, _⟩
    · rw [heq]; left; exact h
    · right; right; exact hres
    · right; left; exact hres
    · rw [h] at hc; cases hc
    · rw [h] at hc; cases hc
    · rw [h] at hc; cases hc
  refine ⟨h1, ?_⟩
  rcases sweepTx_status_step cfg n2 (sweepTx cfg n1 tx).1 with heq | ⟨_, _, hres⟩ |
    ⟨_, _, hres⟩ | ⟨_, hres⟩ | ⟨hc, _⟩ | ⟨_, hres⟩
  · rw [heq]
    rcases h1 with h1 | h1 | h1 <;> rw [h1] <;> intro hcontra <;> cases hcontra
  · rw [hres]; intro hcontra; cases hcontra
  · rw [hres]; intro hcontra; cases hcontra
  · rw [hres]; intro hcontra; cases hcontra
  · rcases h1 with h1 | h1 | h1 <;> rw [h1] at hc <;> cases hc
  · rw [hres]; intro hcontra; cases hcontra

/-- C10 (witness): the theorem evaluated on a fresh submission with both
sweeps far past every threshold. -/
theorem c10_witness :
    ((sweepTx cfgOn 100000 tx0).1.status = TransactionStatus.SUBMITTED ∨
     (sweepTx cfgOn 100000 tx0).1.status = TransactionStatus.CONVERTING ∨
     (sweepTx cfgOn 100000 tx0).1.status = TransactionStatus.FLAGGED_AWAITING_CLEARANCE)
  ∧ (sweepTx cfgOn 200000 (sweepTx cfgOn 100000 tx0).1).1.status ≠
      TransactionStatus.FUNDS_ARRIVED :=
  c10_one_state_per_sweep cfgOn 100000 200000 tx0 (by decide)

end Icubank
